import Mathlib

/-!
Shallow embedding of `src/biogrid-server.ts` (BioGRID MCP server).

The server is a dispatch table: a tool name plus a JavaScript argument
object is validated, turned into an upstream query-parameter list, sent to
the BioGRID REST service, and the response is reshaped into a JSON
envelope.  The upstream HTTP service is modelled as an oracle function
from the built query parameters to either a record list or a transport
error message; each handler reports how many upstream calls it made.
-/

namespace Biogrid

/-- A JavaScript runtime value, as far as the argument objects of this
server can observe one: strings, (integer) numbers, booleans, null,
undefined and arrays.  (IEEE-754 specifics such as NaN are not modelled;
no claim depends on them.) -/
inductive JsVal where
  | vstr : String → JsVal
  | vnum : Int → JsVal
  | vbool : Bool → JsVal
  | vnull : JsVal
  | vundefined : JsVal
  | varr : List JsVal → JsVal

/-- JavaScript truthiness of a value (`if (v)`): `0`, `""`, `false`,
`null` and `undefined` are falsy, arrays are truthy. -/
def jsTruthy : JsVal → Bool
  | .vstr s => !(s == "")
  | .vnum n => !(n == 0)
  | .vbool b => b
  | .vnull => false
  | .vundefined => false
  | .varr _ => true

/-- The JavaScript `||` operator: left operand when truthy, else right. -/
def jsOr (a b : JsVal) : JsVal := if jsTruthy a then a else b

mutual

/-- JavaScript `String(v)` coercion on the modelled values; arrays join
their coerced elements with commas (with `null` and `undefined`
elements rendered empty, as `Array.prototype.join` does). -/
def jsToString : JsVal → String
  | .vstr s => s
  | .vnum n => toString n
  | .vbool b => if b then "true" else "false"
  | .vnull => "null"
  | .vundefined => "undefined"
  | .varr xs => jsArrayToString xs

/-- Rendering of `Array.prototype.join(',')` over coerced elements. -/
def jsArrayToString : List JsVal → String
  | [] => ""
  | [x] => jsElemToString x
  | x :: y :: rest => jsElemToString x ++ "," ++ jsArrayToString (y :: rest)

/-- One array element under `join`: empty for `null`/`undefined`,
`String(v)` otherwise. -/
def jsElemToString : JsVal → String
  | .vnull => ""
  | .vundefined => ""
  | .vstr s => s
  | .vnum n => toString n
  | .vbool b => if b then "true" else "false"
  | .varr xs => jsArrayToString xs

end

/-- The check `typeof v === 'string'`. -/
def isJsString : JsVal → Bool
  | .vstr _ => true
  | _ => false

/-- JavaScript strict equality `v === s` against a string literal. -/
def JsVal.isStrEq (v : JsVal) (s : String) : Bool :=
  match v with
  | .vstr t => t == s
  | _ => false

/-- Source `isStringArray`: `Array.isArray(val) && val.every(x => typeof x === 'string')`. -/
def isStringArray : JsVal → Bool
  | .varr xs => xs.all (fun x => isJsString x)
  | _ => false

/-- The string list held by a list of values that are all strings
(`none` as soon as one is not a string). -/
def strElems : List JsVal → Option (List String)
  | [] => some []
  | .vstr s :: rest => (strElems rest).map (fun l => s :: l)
  | _ :: _ => none

/-- Extract the string list from a value that is an array of strings
(`none` when the value is not such an array). -/
def asStringList : JsVal → Option (List String)
  | .varr xs => strElems xs
  | _ => none

/-- JavaScript property access `args.key` on an argument object: the
stored value, or `undefined` when the property is absent. -/
def getArg (args : List (String × JsVal)) (k : String) : JsVal :=
  match args.lookup k with
  | some v => v
  | none => .vundefined

/-- The method `String.prototype.toLowerCase` (ASCII-faithful model). -/
def jsToLower (s : String) : String := String.mk (s.data.map Char.toLower)

/-- Case-insensitive string equality. -/
def ciEqual (a b : String) : Bool := jsToLower a == jsToLower b

/-- Raw upstream interaction record (source interface `BioGridInteraction`). -/
structure BioGridInteraction where
  BIOGRID_INTERACTION_ID : String
  OFFICIAL_SYMBOL_A : String
  OFFICIAL_SYMBOL_B : String
  BIOGRID_ID_A : String
  BIOGRID_ID_B : String
  INTERACTION_TYPE : String
  EXPERIMENTAL_SYSTEM : String
  EXPERIMENTAL_SYSTEM_TYPE : String
  AUTHOR : String
  PUBMED_ID : String
  TAXON_ID_A : String
  TAXON_ID_B : String
  THROUGH_PUT : String
  SCORE : String
  deriving DecidableEq

/-- Raw upstream gene record (source interface `GeneResult`). -/
structure GeneResult where
  BIOGRID_ID : String
  OFFICIAL_SYMBOL : String
  SYNONYMS : String
  TAXON_ID : String
  ORGANISM_NAME : String
  deriving DecidableEq

/-- The MCP error codes this server raises. -/
inductive ErrorCode where
  | InvalidParams
  | MethodNotFound
  | InvalidRequest
  | InternalError
  deriving DecidableEq

/-- An `McpError(code, message)` value. -/
structure McpError where
  code : ErrorCode
  message : String
  deriving DecidableEq

/-- Result of running one handler: the value or the raised `McpError`,
together with the number of upstream HTTP calls that were made. -/
structure Outcome (α : Type) where
  result : Except McpError α
  upstreamCalls : Nat

/-- Map a function over a successful outcome, keeping the call count. -/
def Outcome.map {α β : Type} (f : α → β) (o : Outcome α) : Outcome β :=
  { result := o.result.map f, upstreamCalls := o.upstreamCalls }

/-- Error code carried by a failed outcome, `none` on success. -/
def Outcome.errCode {α : Type} (o : Outcome α) : Option ErrorCode :=
  match o.result with
  | .error e => some e.code
  | .ok _ => none

/-- One normalized edge of the interaction envelope (source lines 277-284). -/
structure Edge where
  a : String
  b : String
  biogrid_interaction_id : String
  experimental_system : String
  system_type : String
  pubmed_id : String
  deriving DecidableEq

/-- The `get_*_interactions` result envelope. -/
structure InteractionEnvelope where
  query_gene : String
  interaction_type : String
  count : Nat
  edges : List Edge
  deriving DecidableEq

/-- One normalized gene of the `search_genes` envelope. -/
structure GeneEntry where
  biogrid_id : String
  symbol : String
  synonyms : List String
  taxon_id : String
  organism : String
  deriving DecidableEq

/-- The `search_genes` result envelope. -/
structure GeneSearchEnvelope where
  query : String
  count : Nat
  genes : List GeneEntry
  deriving DecidableEq

/-- The `export_edge_list` result envelope. -/
structure EdgeExportEnvelope where
  edge_list : List (String × String)
  count : Nat
  deriving DecidableEq

/-- JavaScript `s.split(sep)` for a single-character separator, on the
character list. -/
def splitChars (sep : Char) : List Char → List (List Char)
  | [] => [[]]
  | c :: cs =>
    if c = sep then [] :: splitChars sep cs
    else
      match splitChars sep cs with
      | [] => [[c]]
      | g :: gs => (c :: g) :: gs

/-- JavaScript `s.split(sep)` (single-character separator). -/
def jsSplit (sep : Char) (s : String) : List String :=
  (splitChars sep s.data).map String.mk

/-- JavaScript `Array.prototype.join(sep)` on character lists. -/
def joinChars (sep : Char) : List (List Char) → List Char
  | [] => []
  | [x] => x
  | x :: y :: rest => x ++ sep :: joinChars sep (y :: rest)

/-- JavaScript `ids.join(sep)` for a string array (single-character
separator). -/
def jsJoin (sep : Char) (xs : List String) : String :=
  String.mk (joinChars sep (xs.map String.data))

/-- The normalized-edge projection (source lines 277-284). -/
def toEdge (d : BioGridInteraction) : Edge :=
  { a := d.OFFICIAL_SYMBOL_A
    b := d.OFFICIAL_SYMBOL_B
    biogrid_interaction_id := d.BIOGRID_INTERACTION_ID
    experimental_system := d.EXPERIMENTAL_SYSTEM
    system_type := d.EXPERIMENTAL_SYSTEM_TYPE
    pubmed_id := d.PUBMED_ID }

/-- Interaction normalizer and envelope construction
(source lines 267-288): filter by experimental-system type unless the
requested type is `"all"`, then project each kept record to an edge. -/
def interactionEnvelope (gene type : String) (data : List BioGridInteraction) :
    InteractionEnvelope :=
  let filtered := data.filter
    (fun d => (type == "all") || (jsToLower d.EXPERIMENTAL_SYSTEM_TYPE == type))
  { query_gene := gene
    interaction_type := type
    count := filtered.length
    edges := filtered.map toEdge }

/-- Gene normalizer and envelope construction (source lines 313-323):
synonyms are split on the pipe delimiter. -/
def geneSearchEnvelope (query : String) (data : List GeneResult) :
    GeneSearchEnvelope :=
  { query := query
    count := data.length
    genes := data.map (fun g =>
      { biogrid_id := g.BIOGRID_ID
        symbol := g.OFFICIAL_SYMBOL
        synonyms := jsSplit '|' g.SYNONYMS
        taxon_id := g.TAXON_ID
        organism := g.ORGANISM_NAME }) }

/-- Edge-export normalizer and envelope construction
(source lines 346-353): every record is projected to its symbol pair;
there is no type filter here. -/
def edgeExportEnvelope (data : List BioGridInteraction) : EdgeExportEnvelope :=
  let edgeList := data.map (fun d => (d.OFFICIAL_SYMBOL_A, d.OFFICIAL_SYMBOL_B))
  { edge_list := edgeList, count := edgeList.length }

/-- Query parameters built by `runInteractionQuery` (source lines 255-263),
in assignment order: the base object, then `taxonId` when the argument is
truthy, then — when the type is not `"all"` — `interSpeciesExcluded` and
`experimentalSystemType`. -/
def interactionParams (gene : String) (taxon_id : JsVal) (type : String)
    (max_results : JsVal) : List (String × String) :=
  let base := [("searchNames", "true"), ("geneList", gene),
    ("includeInteractors", "true"), ("start", "0"),
    ("max", jsToString (jsOr max_results (.vnum 500)))]
  let withTaxon := if jsTruthy taxon_id then base ++ [("taxonId", jsToString taxon_id)] else base
  if type != "all" then
    withTaxon ++ [("interSpeciesExcluded", "true"), ("experimentalSystemType", type)]
  else withTaxon

/-- Query parameters built by `runGeneSearch` (source lines 299-305). -/
def geneSearchParams (query : String) (taxon_id : JsVal) (max_results : JsVal) :
    List (String × String) :=
  let base := [("searchNames", "true"), ("geneList", query), ("start", "0"),
    ("max", jsToString (jsOr max_results (.vnum 25)))]
  if jsTruthy taxon_id then base ++ [("taxonId", jsToString taxon_id)] else base

/-- Query parameters built by `runEdgeExport` (source lines 334-342). -/
def edgeExportParams (apiKey : String) (ids : List String)
    (interaction_type : JsVal) : List (String × String) :=
  let base := [("geneList", jsJoin '|' ids), ("includeInteractors", "false"),
    ("format", "json"), ("start", "0"), ("max", "10000"), ("accesskey", apiKey)]
  if !(interaction_type.isStrEq "all") then
    base ++ [("experimentalSystemType", jsToString interaction_type)]
  else base

/-- An upstream oracle: the canned behaviour of one BioGRID endpoint,
mapping the query parameters actually sent to either the record list of
the HTTP response or a transport-error message. -/
def Upstream (α : Type) : Type := List (String × String) → Except String α

/-- Handler `runInteractionQuery` (source lines 248-295): validate that `gene` is
a string, build the parameters, make one upstream call, normalize. -/
def runInteractionQuery (gene taxon_id : JsVal) (type : String)
    (max_results : JsVal) (upstream : Upstream (List BioGridInteraction)) :
    Outcome InteractionEnvelope :=
  match gene with
  | .vstr g =>
    match upstream (interactionParams g taxon_id type max_results) with
    | .ok data => { result := .ok (interactionEnvelope g type data), upstreamCalls := 1 }
    | .error msg =>
      { result := .error ⟨.InternalError, "BioGRID API error: " ++ msg⟩, upstreamCalls := 1 }
  | _ => { result := .error ⟨.InvalidParams, "gene must be string"⟩, upstreamCalls := 0 }

/-- Handler `runGeneSearch` (source lines 297-330). -/
def runGeneSearch (query taxon_id max_results : JsVal)
    (upstream : Upstream (List GeneResult)) : Outcome GeneSearchEnvelope :=
  match query with
  | .vstr q =>
    match upstream (geneSearchParams q taxon_id max_results) with
    | .ok data => { result := .ok (geneSearchEnvelope q data), upstreamCalls := 1 }
    | .error msg =>
      { result := .error ⟨.InternalError, "BioGRID gene search error: " ++ msg⟩, upstreamCalls := 1 }
  | _ => { result := .error ⟨.InvalidParams, "query must be string"⟩, upstreamCalls := 0 }

/-- Handler `runEdgeExport` (source lines 332-358): reject unless `ids` is a
non-empty string array, make one upstream call, project to symbol pairs. -/
def runEdgeExport (apiKey : String) (ids interaction_type : JsVal)
    (upstream : Upstream (List BioGridInteraction)) : Outcome EdgeExportEnvelope :=
  if isStringArray ids then
    match asStringList ids with
    | some l =>
      if l.length = 0 then
        { result := .error ⟨.InvalidParams, "biogrid_ids array required"⟩, upstreamCalls := 0 }
      else
        match upstream (edgeExportParams apiKey l interaction_type) with
        | .ok data => { result := .ok (edgeExportEnvelope data), upstreamCalls := 1 }
        | .error msg =>
          { result := .error ⟨.InternalError, "BioGRID edge export error: " ++ msg⟩, upstreamCalls := 1 }
    | none =>
      { result := .error ⟨.InvalidParams, "biogrid_ids array required"⟩, upstreamCalls := 0 }
  else { result := .error ⟨.InvalidParams, "biogrid_ids array required"⟩, upstreamCalls := 0 }

/-- Result of a tool call, tagged with the envelope shape of the tool. -/
inductive ToolOutput where
  | interaction : InteractionEnvelope → ToolOutput
  | genes : GeneSearchEnvelope → ToolOutput
  | edges : EdgeExportEnvelope → ToolOutput
  deriving DecidableEq

/-- The `CallToolRequest` dispatcher (source lines 193-209): switch on the
tool name, route to the matching handler, `MethodNotFound` otherwise. -/
def handleToolCall (apiKey : String) (name : String) (args : List (String × JsVal))
    (interUp : Upstream (List BioGridInteraction))
    (geneUp : Upstream (List GeneResult)) : Outcome ToolOutput :=
  if name = "get_gene_interactions" then
    (runInteractionQuery (getArg args "gene") (getArg args "taxon_id") "all"
      (getArg args "max_results") interUp).map .interaction
  else if name = "get_physical_interactions" then
    (runInteractionQuery (getArg args "gene") (getArg args "taxon_id") "physical"
      (getArg args "max_results") interUp).map .interaction
  else if name = "get_genetic_interactions" then
    (runInteractionQuery (getArg args "gene") (getArg args "taxon_id") "genetic"
      (getArg args "max_results") interUp).map .interaction
  else if name = "search_genes" then
    (runGeneSearch (getArg args "query") (getArg args "taxon_id")
      (getArg args "max_results") geneUp).map .genes
  else if name = "export_edge_list" then
    (runEdgeExport apiKey (getArg args "biogrid_ids")
      (jsOr (getArg args "interaction_type") (.vstr "all")) interUp).map .edges
  else { result := .error ⟨.MethodNotFound, "Unknown tool: " ++ name⟩, upstreamCalls := 0 }

/-! ## JSON text of the edge-export envelope

`JSON.stringify({ edge_list, count }, null, 2)` as produced at source
line 351, reproduced byte for byte (two-space indentation). -/

/-- Lower-case hexadecimal digit. -/
def hexDigit (n : Nat) : Char :=
  if n < 10 then Char.ofNat (48 + n) else Char.ofNat (87 + n)

/-- Four-digit hexadecimal rendering, as in a JSON `\u` escape. -/
def hex4 (n : Nat) : String :=
  String.mk [hexDigit (n / 4096 % 16), hexDigit (n / 256 % 16),
    hexDigit (n / 16 % 16), hexDigit (n % 16)]

/-- The `JSON.stringify` escaping of one character inside a string literal. -/
def jsonEscapeChar (c : Char) : String :=
  if c = '"' then "\\\""
  else if c = '\\' then "\\\\"
  else if c = '\n' then "\\n"
  else if c = '\r' then "\\r"
  else if c = '\t' then "\\t"
  else if c = '\x08' then "\\b"
  else if c = '\x0c' then "\\f"
  else if c.toNat < 32 then "\\u" ++ hex4 c.toNat
  else String.mk [c]

/-- A JSON string literal. -/
def jsonStr (s : String) : String :=
  "\"" ++ String.join (s.data.map jsonEscapeChar) ++ "\""

/-- One `[symbolA, symbolB]` pair at nesting depth two of the stringify. -/
def edgePairJson (p : String × String) : String :=
  "    [\n      " ++ jsonStr p.1 ++ ",\n      " ++ jsonStr p.2 ++ "\n    ]"

/-- The serialized edge-export envelope (source line 351). -/
def edgeExportText (env : EdgeExportEnvelope) : String :=
  "\x7b\n  \"edge_list\": " ++
    (if env.edge_list.isEmpty then "[]"
     else "[\n" ++ String.intercalate ",\n" (env.edge_list.map edgePairJson) ++ "\n  ]") ++
    ",\n  \"count\": " ++ toString env.count ++ "\n\x7d"

/-! ## Resource adapter (source lines 215-243) -/

/-- A JavaScript regular-expression line terminator, which `.` does not
match: LF, CR, LINE SEPARATOR, PARAGRAPH SEPARATOR. -/
def isLineTerminator (c : Char) : Bool :=
  c = '\n' || c = '\r' || c.toNat = 8232 || c.toNat = 8233

/-- Strip a leading literal from a character list, `none` when the list
does not start with it. -/
def dropLeading : List Char → List Char → Option (List Char)
  | [], rest => some rest
  | _ :: _, [] => none
  | p :: ps, c :: cs => if p = c then dropLeading ps cs else none

/-- The match `uri.match(/^biogrid:\/\/export\/(.+)$/)` (source line 229):
the captured group when the URI has the literal head and a non-empty tail
free of line terminators, `none` otherwise. -/
def matchExportUri (uri : String) : Option String :=
  match dropLeading "biogrid://export/".data uri.data with
  | some rest =>
    if !rest.isEmpty && rest.all (fun c => !isLineTerminator c) then
      some (String.mk rest)
    else none
  | none => none

/-- Hexadecimal value of a character, `none` for a non-hex character. -/
def hexVal (c : Char) : Option Nat :=
  if '0' ≤ c ∧ c ≤ '9' then some (c.toNat - 48)
  else if 'a' ≤ c ∧ c ≤ 'f' then some (c.toNat - 87)
  else if 'A' ≤ c ∧ c ≤ 'F' then some (c.toNat - 55)
  else none

/-- Percent-decoding on a character list, the core of
`decodeURIComponent`.  Simplified model: each valid `%hh` escape becomes
the character with that code (no UTF-8 multi-byte recombination), and a
malformed escape is kept verbatim (JavaScript would raise `URIError`);
no claim exercises either divergence. -/
def percentDecodeChars : List Char → List Char
  | [] => []
  | c :: rest =>
    if c = '%' then
      match rest with
      | a :: b :: rest2 =>
        match hexVal a, hexVal b with
        | some ha, some hb => Char.ofNat (16 * ha + hb) :: percentDecodeChars rest2
        | _, _ => '%' :: a :: b :: percentDecodeChars rest2
      | _ => '%' :: rest
    else c :: percentDecodeChars rest

/-- Model of `decodeURIComponent` (see `percentDecodeChars`). -/
def decodeURIComponent (s : String) : String :=
  String.mk (percentDecodeChars s.data)

/-- Contents object returned for a resource read. -/
structure ResourceContents where
  uri : String
  mimeType : String
  text : String
  deriving DecidableEq

/-- The `ReadResourceRequest` handler (source lines 227-242): match the
URI against the export template, decode and split the identifier list,
delegate to `runEdgeExport` with type `"all"`, and return the same JSON
text as the resource body. -/
def readResource (apiKey : String) (uri : String)
    (interUp : Upstream (List BioGridInteraction)) : Outcome ResourceContents :=
  match matchExportUri uri with
  | none => { result := .error ⟨.InvalidRequest, "Invalid biogrid URI"⟩, upstreamCalls := 0 }
  | some captured =>
    let ids := jsSplit ',' (decodeURIComponent captured)
    let out := runEdgeExport apiKey (.varr (ids.map .vstr)) (.vstr "all") interUp
    { result := out.result.map (fun env =>
        { uri := uri, mimeType := "application/json", text := edgeExportText env })
      upstreamCalls := out.upstreamCalls }

/-! ## Helper lemmas -/

/-- A falsy left operand makes `||` return its right operand. -/
lemma jsOr_falsy {a : JsVal} (b : JsVal) (h : jsTruthy a = false) : jsOr a b = b := by
  simp [jsOr, h]

/-- Evaluating `v || d` on a number: the default exactly when the number is `0`. -/
lemma jsOr_vnum (m : Int) (d : JsVal) :
    jsOr (.vnum m) d = if m = 0 then d else .vnum m := by
  by_cases h : m = 0 <;> simp [jsOr, jsTruthy, h]

/-- The `max` parameter of an interaction query is always present and
carries the string of `max_results || 500`. -/
lemma interactionParams_lookup_max (g : String) (taxon : JsVal) (ty : String)
    (maxr : JsVal) :
    (interactionParams g taxon ty maxr).lookup "max" =
      some (jsToString (jsOr maxr (.vnum 500))) := by
  unfold interactionParams
  cases h1 : jsTruthy taxon <;> cases h2 : ty != "all" <;>
    simp [h1, h2, List.lookup]

/-- The `max` parameter of a gene search is always present and carries
the string of `max_results || 25`. -/
lemma geneSearchParams_lookup_max (q : String) (taxon : JsVal) (maxr : JsVal) :
    (geneSearchParams q taxon maxr).lookup "max" =
      some (jsToString (jsOr maxr (.vnum 25))) := by
  unfold geneSearchParams
  cases h1 : jsTruthy taxon <;> simp [h1, List.lookup]

/-- A non-string `gene` argument makes `runInteractionQuery` fail with
`InvalidParams` before calling upstream. -/
lemma runInteractionQuery_not_string {v : JsVal} (taxon : JsVal) (ty : String)
    (maxr : JsVal) (up : Upstream (List BioGridInteraction))
    (h : isJsString v = false) :
    runInteractionQuery v taxon ty maxr up =
      { result := .error ⟨.InvalidParams, "gene must be string"⟩, upstreamCalls := 0 } := by
  cases v <;> simp_all [isJsString, runInteractionQuery]

/-- A non-string `query` argument makes `runGeneSearch` fail with
`InvalidParams` before calling upstream. -/
lemma runGeneSearch_not_string {v : JsVal} (taxon maxr : JsVal)
    (up : Upstream (List GeneResult)) (h : isJsString v = false) :
    runGeneSearch v taxon maxr up =
      { result := .error ⟨.InvalidParams, "query must be string"⟩, upstreamCalls := 0 } := by
  cases v <;> simp_all [isJsString, runGeneSearch]

/-- A `biogrid_ids` argument that is not a string array, or is the empty
array, makes `runEdgeExport` fail with `InvalidParams` before calling
upstream. -/
lemma runEdgeExport_invalid (apiKey : String) {v : JsVal} (ty : JsVal)
    (up : Upstream (List BioGridInteraction))
    (h : isStringArray v = false ∨ v = .varr []) :
    runEdgeExport apiKey v ty up =
      { result := .error ⟨.InvalidParams, "biogrid_ids array required"⟩, upstreamCalls := 0 } := by
  rcases h with h | h
  · simp [runEdgeExport, h]
  · subst h; rfl

/-- Stripping a literal head from the literal head followed by anything
succeeds and returns the tail. -/
lemma dropLeading_append (p r : List Char) : dropLeading p (p ++ r) = some r := by
  induction p with
  | nil => rfl
  | cons c cs ih => simp [dropLeading, ih]

/-- A separator-free character list splits to itself alone. -/
lemma splitChars_no_sep {sep : Char} {x : List Char} (h : sep ∉ x) :
    splitChars sep x = [x] := by
  induction x with
  | nil => rfl
  | cons c cs ih =>
    have hc : ¬c = sep := fun hh => h (hh ▸ List.mem_cons_self c cs)
    have hcs : sep ∉ cs := fun hh => h (List.mem_cons_of_mem c hh)
    simp [splitChars, hc, ih hcs]

/-- Splitting after a separator-free head peels off exactly that head. -/
lemma splitChars_append_sep {sep : Char} {x : List Char} (t : List Char)
    (h : sep ∉ x) :
    splitChars sep (x ++ sep :: t) = x :: splitChars sep t := by
  induction x with
  | nil => simp [splitChars]
  | cons c cs ih =>
    have hc : ¬c = sep := fun hh => h (hh ▸ List.mem_cons_self c cs)
    have hcs : sep ∉ cs := fun hh => h (List.mem_cons_of_mem c hh)
    simp [splitChars, hc, ih hcs]

/-- Splitting a join of separator-free pieces recovers the pieces. -/
lemma splitChars_joinChars {sep : Char} :
    ∀ {xss : List (List Char)}, xss ≠ [] → (∀ xs ∈ xss, sep ∉ xs) →
      splitChars sep (joinChars sep xss) = xss
  | [], h, _ => absurd rfl h
  | [x], _, hall => by
    simp [joinChars, splitChars_no_sep (hall x (List.mem_singleton_self x))]
  | x :: y :: rest, _, hall => by
    have hx : sep ∉ x := hall x (List.mem_cons_self x _)
    have htail : ∀ xs ∈ y :: rest, sep ∉ xs :=
      fun xs hxs => hall xs (List.mem_cons_of_mem x hxs)
    calc splitChars sep (joinChars sep (x :: y :: rest))
        = splitChars sep (x ++ sep :: joinChars sep (y :: rest)) := rfl
      _ = x :: splitChars sep (joinChars sep (y :: rest)) :=
          splitChars_append_sep _ hx
      _ = x :: (y :: rest) :=
          congrArg _ (splitChars_joinChars (List.cons_ne_nil y rest) htail)

/-- Every character of a join is the separator or comes from a piece. -/
lemma mem_joinChars {sep c : Char} :
    ∀ {xss : List (List Char)}, c ∈ joinChars sep xss →
      c = sep ∨ ∃ xs ∈ xss, c ∈ xs
  | [], h => absurd h (List.not_mem_nil c)
  | [x], h => by
    right; exact ⟨x, List.mem_singleton_self x, h⟩
  | x :: y :: rest, h => by
    simp only [joinChars] at h
    rcases List.mem_append.1 h with h | h
    · exact Or.inr ⟨x, List.mem_cons_self x _, h⟩
    · rcases List.mem_cons.1 h with h | h
      · exact Or.inl h
      · rcases mem_joinChars h with h | ⟨xs, hxs, hc⟩
        · exact Or.inl h
        · exact Or.inr ⟨xs, List.mem_cons_of_mem x hxs, hc⟩

/-- A join whose first piece is non-empty is non-empty. -/
lemma joinChars_ne_nil {sep : Char} {x : List Char} (xs : List (List Char))
    (hx : x ≠ []) : joinChars sep (x :: xs) ≠ [] := by
  cases xs with
  | nil => simpa [joinChars] using hx
  | cons y rest =>
    simp only [joinChars]
    intro h
    exact hx (List.append_eq_nil.1 h).1

/-- Percent-decoding a string with no percent sign is the identity. -/
lemma percentDecodeChars_no_escape :
    ∀ {l : List Char}, (∀ c ∈ l, c ≠ '%') → percentDecodeChars l = l
  | [], _ => rfl
  | c :: rest, h => by
    have hc : ¬c = '%' := h c (List.mem_cons_self c rest)
    have hrest : ∀ x ∈ rest, x ≠ '%' := fun x hx => h x (List.mem_cons_of_mem c hx)
    rw [percentDecodeChars.eq_def]
    simp [hc, percentDecodeChars_no_escape hrest]

/-- An array literally built from strings passes `isStringArray` and
recovers its string list. -/
lemma asStringList_map_vstr (ids : List String) :
    asStringList (.varr (ids.map .vstr)) = some ids := by
  simp only [asStringList]
  induction ids with
  | nil => rfl
  | cons s rest ih => simp [List.map_cons, strElems, ih]

/-- The round trip of the resource adapter's decode: joining
comma-free, percent-free identifiers with commas, percent-decoding and
splitting on commas gives the identifiers back. -/
lemma jsSplit_decode_jsJoin {ids : List String} (hne : ids ≠ [])
    (hids : ∀ s ∈ ids, ∀ c ∈ s.data, c ≠ ',' ∧ c ≠ '%') :
    jsSplit ',' (decodeURIComponent (jsJoin ',' ids)) = ids := by
  have hnoPercent : ∀ c ∈ joinChars ',' (ids.map String.data), c ≠ '%' := by
    intro c hc
    rcases mem_joinChars hc with h | ⟨xs, hxs, hcin⟩
    · subst h; decide
    · rcases List.mem_map.1 hxs with ⟨s, hs, rfl⟩
      exact (hids s hs c hcin).2
  have hdec : decodeURIComponent (jsJoin ',' ids) = jsJoin ',' ids := by
    show String.mk (percentDecodeChars (jsJoin ',' ids).data) = jsJoin ',' ids
    rw [show (jsJoin ',' ids).data = joinChars ',' (ids.map String.data) from rfl,
      percentDecodeChars_no_escape hnoPercent]
    rfl
  rw [hdec]
  have hsplit : splitChars ',' (joinChars ',' (ids.map String.data)) =
      ids.map String.data := by
    refine splitChars_joinChars ?_ ?_
    · simpa using hne
    · intro xs hxs hmem
      rcases List.mem_map.1 hxs with ⟨s, hs, rfl⟩
      exact (hids s hs ',' hmem).1 rfl
  show (splitChars ',' (jsJoin ',' ids).data).map String.mk = ids
  rw [show (jsJoin ',' ids).data = joinChars ',' (ids.map String.data) from rfl,
    hsplit, List.map_map]
  exact List.map_id'' (fun s => rfl) ids

/-- Soundness of the interaction normalizer's filter: when the requested
type is not `"all"`, a record kept by the filter has a lower-cased
system type equal to the requested type. -/
lemma interaction_filter_sound {ty : String} (hne : (ty == "all") = false)
    {d : BioGridInteraction} {data : List BioGridInteraction}
    (hd : d ∈ data.filter
      (fun d => (ty == "all") || (jsToLower d.EXPERIMENTAL_SYSTEM_TYPE == ty))) :
    jsToLower d.EXPERIMENTAL_SYSTEM_TYPE = ty := by
  have hpred := (List.mem_filter.1 hd).2
  rw [hne, Bool.false_or, beq_iff_eq] at hpred
  exact hpred

/-! ## Sample records for concrete instantiations -/

/-- A physical interaction record, with an upstream-cased system type. -/
def samplePhysical : BioGridInteraction :=
  { BIOGRID_INTERACTION_ID := "103"
    OFFICIAL_SYMBOL_A := "TP53"
    OFFICIAL_SYMBOL_B := "MDM2"
    BIOGRID_ID_A := "111"
    BIOGRID_ID_B := "222"
    INTERACTION_TYPE := "physical"
    EXPERIMENTAL_SYSTEM := "Two-hybrid"
    EXPERIMENTAL_SYSTEM_TYPE := "Physical"
    AUTHOR := "Doe J (2020)"
    PUBMED_ID := "12345"
    TAXON_ID_A := "9606"
    TAXON_ID_B := "9606"
    THROUGH_PUT := "Low Throughput"
    SCORE := "-" }

/-- A genetic interaction record. -/
def sampleGenetic : BioGridInteraction :=
  { BIOGRID_INTERACTION_ID := "104"
    OFFICIAL_SYMBOL_A := "SGS1"
    OFFICIAL_SYMBOL_B := "TOP3"
    BIOGRID_ID_A := "333"
    BIOGRID_ID_B := "444"
    INTERACTION_TYPE := "genetic"
    EXPERIMENTAL_SYSTEM := "Dosage Rescue"
    EXPERIMENTAL_SYSTEM_TYPE := "genetic"
    AUTHOR := "Roe R (2018)"
    PUBMED_ID := "67890"
    TAXON_ID_A := "559292"
    TAXON_ID_B := "559292"
    THROUGH_PUT := "Low Throughput"
    SCORE := "2.5" }

/-- A gene catalog record with a pipe-delimited synonym field. -/
def sampleGene : GeneResult :=
  { BIOGRID_ID := "111"
    OFFICIAL_SYMBOL := "PIK3R1"
    SYNONYMS := "p85|PIK3R1|PIK3R2"
    TAXON_ID := "9606"
    ORGANISM_NAME := "Homo sapiens" }

/-! ## Claim theorems -/

/-- C1: for a type-restricted interaction tool, every record in the
returned `edges` sequence has `system_type` case-insensitively equal to
the requested type; for `get_gene_interactions` (type `"all"`) the
returned sequence has the same length as the raw upstream record
sequence; and the invocation with a string gene argument returns exactly
this envelope. -/
theorem biogrid_C1 (g : String) (taxon maxr : JsVal) (ty : String)
    (data : List BioGridInteraction) (up : Upstream (List BioGridInteraction)) :
    (ty = "physical" ∨ ty = "genetic" →
      ∀ e ∈ (interactionEnvelope g ty data).edges, ciEqual e.system_type ty = true) ∧
    (interactionEnvelope g "all" data).edges.length = data.length ∧
    (up (interactionParams g taxon ty maxr) = .ok data →
      (runInteractionQuery (.vstr g) taxon ty maxr up).result =
        .ok (interactionEnvelope g ty data)) := by
  refine ⟨?_, ?_, ?_⟩
  · intro hty e he
    simp only [interactionEnvelope] at he
    rcases List.mem_map.1 he with ⟨d, hd, rfl⟩
    have hne : (ty == "all") = false := by
      rcases hty with h | h <;> subst h <;> decide
    have hlow := interaction_filter_sound hne hd
    have hty2 : jsToLower ty = ty := by
      rcases hty with h | h <;> subst h <;> decide
    simp only [ciEqual, toEdge]
    rw [hlow, hty2]
    simp
  · simp [interactionEnvelope]
  · intro hup
    simp [runInteractionQuery, hup]

/-- C2: for every tool, the `count` field of the returned envelope equals
the length of the accompanying sequence field (`edges`, `genes`,
`edge_list`). -/
theorem biogrid_C2 (g ty q : String) (idata edata : List BioGridInteraction)
    (gdata : List GeneResult) :
    (interactionEnvelope g ty idata).count =
      (interactionEnvelope g ty idata).edges.length ∧
    (geneSearchEnvelope q gdata).count = (geneSearchEnvelope q gdata).genes.length ∧
    (edgeExportEnvelope edata).count = (edgeExportEnvelope edata).edge_list.length := by
  refine ⟨?_, ?_, ?_⟩ <;>
    simp [interactionEnvelope, geneSearchEnvelope, edgeExportEnvelope]

/-- C3: an invocation missing a required argument or giving it the wrong
type (`gene` not a string, `query` not a string, `biogrid_ids` not a
string array or empty) fails with an `InvalidParams` error and makes
zero upstream calls. -/
theorem biogrid_C3 (apiKey name : String) (args : List (String × JsVal))
    (interUp : Upstream (List BioGridInteraction))
    (geneUp : Upstream (List GeneResult)) :
    ((name = "get_gene_interactions" ∨ name = "get_physical_interactions" ∨
        name = "get_genetic_interactions") →
      isJsString (getArg args "gene") = false →
      (handleToolCall apiKey name args interUp geneUp).errCode =
        some .InvalidParams ∧
      (handleToolCall apiKey name args interUp geneUp).upstreamCalls = 0) ∧
    (isJsString (getArg args "query") = false →
      (handleToolCall apiKey "search_genes" args interUp geneUp).errCode =
        some .InvalidParams ∧
      (handleToolCall apiKey "search_genes" args interUp geneUp).upstreamCalls = 0) ∧
    ((isStringArray (getArg args "biogrid_ids") = false ∨
        getArg args "biogrid_ids" = .varr []) →
      (handleToolCall apiKey "export_edge_list" args interUp geneUp).errCode =
        some .InvalidParams ∧
      (handleToolCall apiKey "export_edge_list" args interUp geneUp).upstreamCalls = 0) := by
  refine ⟨?_, ?_, ?_⟩
  · intro hname hgene
    rcases hname with h | h | h <;> subst h <;>
      simp [handleToolCall, runInteractionQuery_not_string _ _ _ interUp hgene,
        Outcome.map, Outcome.errCode, Except.map]
  · intro hquery
    simp [handleToolCall, runGeneSearch_not_string _ _ geneUp hquery,
      Outcome.map, Outcome.errCode, Except.map]
  · intro hids
    simp [handleToolCall, runEdgeExport_invalid apiKey _ interUp hids,
      Outcome.map, Outcome.errCode, Except.map]

/-- Witness for C3: a numeric `gene`, a missing `query` and an empty
`biogrid_ids` are each rejected with `InvalidParams` and zero upstream
calls. -/
theorem biogrid_C3_witness :
    (handleToolCall "KEY" "get_gene_interactions" [("gene", .vnum 5)]
        (fun _ => .ok []) (fun _ => .ok [])).errCode = some .InvalidParams ∧
    (handleToolCall "KEY" "get_gene_interactions" [("gene", .vnum 5)]
        (fun _ => .ok []) (fun _ => .ok [])).upstreamCalls = 0 ∧
    (handleToolCall "KEY" "search_genes" []
        (fun _ => .ok []) (fun _ => .ok [])).errCode = some .InvalidParams ∧
    (handleToolCall "KEY" "search_genes" []
        (fun _ => .ok []) (fun _ => .ok [])).upstreamCalls = 0 ∧
    (handleToolCall "KEY" "export_edge_list" [("biogrid_ids", .varr [])]
        (fun _ => .ok []) (fun _ => .ok [])).errCode = some .InvalidParams ∧
    (handleToolCall "KEY" "export_edge_list" [("biogrid_ids", .varr [])]
        (fun _ => .ok []) (fun _ => .ok [])).upstreamCalls = 0 := by
  have h1 := (biogrid_C3 "KEY" "get_gene_interactions" [("gene", .vnum 5)]
    (fun _ => .ok []) (fun _ => .ok [])).1 (Or.inl rfl) rfl
  have h2 := (biogrid_C3 "KEY" "search_genes" []
    (fun _ => .ok []) (fun _ => .ok [])).2.1 rfl
  have h3 := (biogrid_C3 "KEY" "export_edge_list" [("biogrid_ids", .varr [])]
    (fun _ => .ok []) (fun _ => .ok [])).2.2 (Or.inr rfl)
  exact ⟨h1.1, h1.2, h2.1, h2.2, h3.1, h3.2⟩

/-- Witness for C1 at a concrete invocation: a mixed physical/genetic
upstream response to `get_physical_interactions` keeps only the
(case-insensitively) physical edge, `"all"` keeps both, and the handler
returns exactly the normalized envelope. -/
theorem biogrid_C1_witness :
    ciEqual (toEdge samplePhysical).system_type "physical" = true ∧
    (interactionEnvelope "TP53" "all" [samplePhysical, sampleGenetic]).edges.length = 2 ∧
    (runInteractionQuery (.vstr "TP53") .vundefined "physical" .vundefined
        (fun _ => .ok [samplePhysical, sampleGenetic])).result =
      .ok (interactionEnvelope "TP53" "physical" [samplePhysical, sampleGenetic]) := by
  have h := biogrid_C1 "TP53" .vundefined .vundefined "physical"
    [samplePhysical, sampleGenetic] (fun _ => .ok [samplePhysical, sampleGenetic])
  refine ⟨h.1 (Or.inl rfl) (toEdge samplePhysical) (by decide), ?_, h.2.2 rfl⟩
  exact h.2.1.trans (by decide)

/-- Counterexample to C4 as stated: `get_gene_interactions` with
`max_results = 20000` (outside `[1,10000]`) is not rejected — the
upstream call is made and the out-of-range value is forwarded as the
`max` parameter. -/
theorem biogrid_C4_counterexample :
    (handleToolCall "KEY" "get_gene_interactions"
        [("gene", .vstr "TP53"), ("max_results", .vnum 20000)]
        (fun _ => .ok []) (fun _ => .ok [])).errCode ≠ some .InvalidParams ∧
    (handleToolCall "KEY" "get_gene_interactions"
        [("gene", .vstr "TP53"), ("max_results", .vnum 20000)]
        (fun _ => .ok []) (fun _ => .ok [])).upstreamCalls = 1 ∧
    (interactionParams "TP53" .vundefined "all" (.vnum 20000)).lookup "max" =
      some "20000" := by
  refine ⟨?_, rfl, rfl⟩
  decide

/-- C4 as amended: the dispatcher performs no range validation of
`max_results` at all — for every integer value, the invocation with a
valid required argument proceeds to exactly one upstream call, never an
`InvalidParams` error, and the `max` parameter sent is the default
(`"500"`, `"25"` for `search_genes`) when the value is `0` and the
decimal rendering of the value otherwise. -/
theorem biogrid_C4_amended (g q : String) (taxon : JsVal) (ty : String) (m : Int)
    (interUp : Upstream (List BioGridInteraction))
    (geneUp : Upstream (List GeneResult)) :
    (interactionParams g taxon ty (.vnum m)).lookup "max" =
      some (if m = 0 then "500" else toString m) ∧
    (runInteractionQuery (.vstr g) taxon ty (.vnum m) interUp).errCode ≠
      some .InvalidParams ∧
    (runInteractionQuery (.vstr g) taxon ty (.vnum m) interUp).upstreamCalls = 1 ∧
    (geneSearchParams q taxon (.vnum m)).lookup "max" =
      some (if m = 0 then "25" else toString m) ∧
    (runGeneSearch (.vstr q) taxon (.vnum m) geneUp).errCode ≠
      some .InvalidParams ∧
    (runGeneSearch (.vstr q) taxon (.vnum m) geneUp).upstreamCalls = 1 := by
  refine ⟨?_, ?_, ?_, ?_, ?_, ?_⟩
  · rw [interactionParams_lookup_max, jsOr_vnum]
    by_cases h : m = 0
    · rw [if_pos h, if_pos h]; rfl
    · rw [if_neg h, if_neg h]; rfl
  · cases hu : interUp (interactionParams g taxon ty (.vnum m)) <;>
      simp [runInteractionQuery, hu, Outcome.errCode]
  · cases hu : interUp (interactionParams g taxon ty (.vnum m)) <;>
      simp [runInteractionQuery, hu]
  · rw [geneSearchParams_lookup_max, jsOr_vnum]
    by_cases h : m = 0
    · rw [if_pos h, if_pos h]; rfl
    · rw [if_neg h, if_neg h]; rfl
  · cases hu : geneUp (geneSearchParams q taxon (.vnum m)) <;>
      simp [runGeneSearch, hu, Outcome.errCode]
  · cases hu : geneUp (geneSearchParams q taxon (.vnum m)) <;>
      simp [runGeneSearch, hu]

/-- Counterexample to C5 as stated: `export_edge_list` with
`interaction_type = "physical"` does not re-check records at the
normalization stage — an upstream record whose experimental-system type
is `"genetic"` still contributes its symbol pair to the result. -/
theorem biogrid_C5_counterexample :
    (runEdgeExport "KEY" (.varr [.vstr "111"]) (.vstr "physical")
        (fun _ => .ok [sampleGenetic])).result =
      .ok { edge_list := [("SGS1", "TOP3")], count := 1 } ∧
    sampleGenetic.EXPERIMENTAL_SYSTEM_TYPE = "genetic" :=
  ⟨rfl, rfl⟩

/-- C5 as amended: the defensive normalization-stage re-check exists only
in the interaction tools, where a non-`"all"` request keeps exactly the
records whose lower-cased system type equals the requested type;
`export_edge_list` forwards the constraint upstream as the
`experimentalSystemType` parameter but projects every upstream record's
symbol pair into `edge_list` without re-checking. -/
theorem biogrid_C5_amended (g ty : String) (data : List BioGridInteraction)
    (apiKey : String) (ids : List String) (tys : String)
    (hty : ty ≠ "all") :
    (∀ e ∈ (interactionEnvelope g ty data).edges, jsToLower e.system_type = ty) ∧
    (edgeExportEnvelope data).edge_list =
      data.map (fun d => (d.OFFICIAL_SYMBOL_A, d.OFFICIAL_SYMBOL_B)) ∧
    (edgeExportParams apiKey ids (.vstr tys)).lookup "experimentalSystemType" =
      (if tys = "all" then none else some tys) := by
  refine ⟨?_, rfl, ?_⟩
  · intro e he
    simp only [interactionEnvelope] at he
    rcases List.mem_map.1 he with ⟨d, hd, rfl⟩
    have hne : (ty == "all") = false := beq_eq_false_iff_ne.2 hty
    exact interaction_filter_sound hne hd
  · unfold edgeExportParams
    by_cases h : tys = "all"
    · subst h; rfl
    · have hb : (JsVal.vstr tys).isStrEq "all" = false := by
        simp [JsVal.isStrEq, h]
      rw [hb, if_neg h]
      simp [List.lookup, jsToString]

/-- Witness for C5's amended statement: the kept physical edge is
lower-cased physical, a genetic record passes the export projection
verbatim, and the export builder forwards the type constraint. -/
theorem biogrid_C5_witness :
    jsToLower (toEdge samplePhysical).system_type = "physical" ∧
    (edgeExportEnvelope [sampleGenetic]).edge_list = [("SGS1", "TOP3")] ∧
    (edgeExportParams "KEY" ["111"] (.vstr "physical")).lookup
      "experimentalSystemType" = some "physical" := by
  have h := biogrid_C5_amended "TP53" "physical" [samplePhysical, sampleGenetic]
    "KEY" ["111"] "physical" (by decide)
  refine ⟨h.1 (toEdge samplePhysical) (by decide), ?_, h.2.2.trans (by decide)⟩
  exact (biogrid_C5_amended "TP53" "physical" [sampleGenetic] "KEY" ["111"]
    "physical" (by decide)).2.1

/-- C6: a type-restricted interaction query carries both the
`experimentalSystemType` parameter (set to the requested type) and the
`interSpeciesExcluded` flag set to `"true"`; a type-`"all"` query
carries neither. -/
theorem biogrid_C6 (g : String) (taxon maxr : JsVal) (ty : String) :
    (ty = "physical" ∨ ty = "genetic" →
      (interactionParams g taxon ty maxr).lookup "experimentalSystemType" = some ty ∧
      (interactionParams g taxon ty maxr).lookup "interSpeciesExcluded" = some "true") ∧
    (interactionParams g taxon "all" maxr).lookup "experimentalSystemType" = none ∧
    (interactionParams g taxon "all" maxr).lookup "interSpeciesExcluded" = none := by
  refine ⟨?_, ?_, ?_⟩
  · intro hty
    have hne : (ty != "all") = true := by
      rcases hty with h | h <;> subst h <;> decide
    unfold interactionParams
    rw [hne]
    cases h1 : jsTruthy taxon <;> simp [List.lookup]
  · unfold interactionParams
    cases h1 : jsTruthy taxon <;> simp [List.lookup]
  · unfold interactionParams
    cases h1 : jsTruthy taxon <;> simp [List.lookup]

/-- Witness for C6 at type `"physical"` with no species filter. -/
theorem biogrid_C6_witness :
    (interactionParams "TP53" .vundefined "physical" .vundefined).lookup
      "experimentalSystemType" = some "physical" ∧
    (interactionParams "TP53" .vundefined "physical" .vundefined).lookup
      "interSpeciesExcluded" = some "true" ∧
    (interactionParams "TP53" .vundefined "all" .vundefined).lookup
      "experimentalSystemType" = none ∧
    (interactionParams "TP53" .vundefined "all" .vundefined).lookup
      "interSpeciesExcluded" = none := by
  have h := biogrid_C6 "TP53" .vundefined .vundefined "physical"
  have h1 := h.1 (Or.inl rfl)
  exact ⟨h1.1, h1.2, h.2.1, h.2.2⟩

/-- Counterexample to C7 as stated: for the identifier list `["1,2"]`
(one identifier containing a comma) the resource URI round trip decodes
to `["1","2"]`, which is not the original identifier list. -/
theorem biogrid_C7_counterexample :
    jsJoin ',' ["1,2"] = "1,2" ∧
    matchExportUri ("biogrid://export/" ++ jsJoin ',' ["1,2"]) = some "1,2" ∧
    jsSplit ',' (decodeURIComponent "1,2") = ["1", "2"] ∧
    (["1", "2"] : List String) ≠ ["1,2"] := by
  refine ⟨rfl, rfl, rfl, ?_⟩
  decide

/-- C7 as amended: for every non-empty identifier list whose identifiers
are non-empty and free of commas, percent signs and line terminators,
reading `biogrid://export/<comma-joined list>` matches the template,
decodes (percent-decode, then split on commas) back to the identifier
list, and returns as its body exactly the serialized envelope of
`export_edge_list` on those ids with type `"all"` against the same
upstream response. -/
theorem biogrid_C7_amended (apiKey : String) (ids : List String)
    (interUp : Upstream (List BioGridInteraction))
    (hne : ids ≠ [])
    (hids : ∀ s ∈ ids, s.data ≠ [] ∧
      ∀ c ∈ s.data, c ≠ ',' ∧ c ≠ '%' ∧ isLineTerminator c = false) :
    matchExportUri ("biogrid://export/" ++ jsJoin ',' ids) = some (jsJoin ',' ids) ∧
    jsSplit ',' (decodeURIComponent (jsJoin ',' ids)) = ids ∧
    (readResource apiKey ("biogrid://export/" ++ jsJoin ',' ids) interUp).result =
      (runEdgeExport apiKey (.varr (ids.map .vstr)) (.vstr "all") interUp).result.map
        (fun env => { uri := "biogrid://export/" ++ jsJoin ',' ids,
                      mimeType := "application/json",
                      text := edgeExportText env }) := by
  obtain ⟨x, t, rfl⟩ : ∃ x t, ids = x :: t := by
    cases ids with
    | nil => exact absurd rfl hne
    | cons x t => exact ⟨x, t, rfl⟩
  have hne2 : joinChars ',' ((x :: t).map String.data) ≠ [] :=
    joinChars_ne_nil _ ((hids x (List.mem_cons_self x t)).1)
  have hempty : ((jsJoin ',' (x :: t)).data).isEmpty = false := by
    cases hj : joinChars ',' ((x :: t).map String.data) with
    | nil => exact absurd hj hne2
    | cons a l =>
      show (joinChars ',' ((x :: t).map String.data)).isEmpty = false
      rw [hj]; rfl
  have hall : ∀ c ∈ (jsJoin ',' (x :: t)).data, isLineTerminator c = false := by
    intro c hc
    rcases mem_joinChars hc with h | ⟨xs, hxs, hcin⟩
    · subst h; decide
    · rcases List.mem_map.1 hxs with ⟨s, hs, rfl⟩
      exact ((hids s hs).2 c hcin).2.2
  have hmatch : matchExportUri ("biogrid://export/" ++ jsJoin ',' (x :: t)) =
      some (jsJoin ',' (x :: t)) := by
    unfold matchExportUri
    rw [String.data_append, dropLeading_append]
    have hcond : (!((jsJoin ',' (x :: t)).data).isEmpty &&
        ((jsJoin ',' (x :: t)).data).all (fun c => !isLineTerminator c)) = true := by
      rw [hempty]
      simp only [Bool.not_false, Bool.true_and, List.all_eq_true]
      intro c hc
      rw [hall c hc]; rfl
    simp only [hcond, if_true]
  have hsplit : jsSplit ',' (decodeURIComponent (jsJoin ',' (x :: t))) = x :: t :=
    jsSplit_decode_jsJoin hne (fun s hs c hc =>
      ⟨((hids s hs).2 c hc).1, ((hids s hs).2 c hc).2.1⟩)
  refine ⟨hmatch, hsplit, ?_⟩
  unfold readResource
  rw [hmatch]
  simp only [hsplit]

/-- Witness for C7's amended statement at the identifier list
`["111","222"]`. -/
theorem biogrid_C7_witness :
    matchExportUri "biogrid://export/111,222" = some "111,222" ∧
    jsSplit ',' (decodeURIComponent "111,222") = ["111", "222"] ∧
    (readResource "KEY" "biogrid://export/111,222"
        (fun _ => .ok [samplePhysical])).result =
      (runEdgeExport "KEY" (.varr [.vstr "111", .vstr "222"]) (.vstr "all")
          (fun _ => .ok [samplePhysical])).result.map
        (fun env => { uri := "biogrid://export/111,222",
                      mimeType := "application/json",
                      text := edgeExportText env }) := by
  exact biogrid_C7_amended "KEY" ["111", "222"] (fun _ => .ok [samplePhysical])
    (by decide) (by decide)

/-- C8: calling a tool name outside the registered set fails with
`MethodNotFound`, and reading a URI that does not match the
`biogrid://export/{ids}` template fails with `InvalidRequest`; in both
cases zero upstream calls are made. -/
theorem biogrid_C8 (apiKey name uri : String) (args : List (String × JsVal))
    (interUp : Upstream (List BioGridInteraction))
    (geneUp : Upstream (List GeneResult))
    (h1 : name ≠ "get_gene_interactions") (h2 : name ≠ "get_physical_interactions")
    (h3 : name ≠ "get_genetic_interactions") (h4 : name ≠ "search_genes")
    (h5 : name ≠ "export_edge_list") (huri : matchExportUri uri = none) :
    (handleToolCall apiKey name args interUp geneUp).errCode =
      some .MethodNotFound ∧
    (handleToolCall apiKey name args interUp geneUp).upstreamCalls = 0 ∧
    (readResource apiKey uri interUp).errCode = some .InvalidRequest ∧
    (readResource apiKey uri interUp).upstreamCalls = 0 := by
  refine ⟨?_, ?_, ?_, ?_⟩ <;>
    simp [handleToolCall, readResource, h1, h2, h3, h4, h5, huri, Outcome.errCode]

/-- Witness for C8: an unregistered tool name and a non-matching URI. -/
theorem biogrid_C8_witness :
    (handleToolCall "KEY" "bogus_tool" [] (fun _ => .ok [])
        (fun _ => .ok [])).errCode = some .MethodNotFound ∧
    (handleToolCall "KEY" "bogus_tool" [] (fun _ => .ok [])
        (fun _ => .ok [])).upstreamCalls = 0 ∧
    (readResource "KEY" "http://example" (fun _ => .ok [])).errCode =
      some .InvalidRequest ∧
    (readResource "KEY" "http://example" (fun _ => .ok [])).upstreamCalls = 0 := by
  exact biogrid_C8 "KEY" "bogus_tool" "http://example" [] (fun _ => .ok [])
    (fun _ => .ok []) (by decide) (by decide) (by decide) (by decide) (by decide)
    (by decide)

/-- C9: `search_genes` splits each upstream record's synonyms field on
the pipe delimiter into an ordered sequence; a record with synonyms
`"p85|PIK3R1|PIK3R2"` contributes the entry with synonyms sequence
`["p85","PIK3R1","PIK3R2"]`. -/
theorem biogrid_C9 (q : String) (data : List GeneResult) (g : GeneResult)
    (hg : g ∈ data) :
    (geneSearchEnvelope q data).genes.map GeneEntry.synonyms =
      data.map (fun r => jsSplit '|' r.SYNONYMS) ∧
    (g.SYNONYMS = "p85|PIK3R1|PIK3R2" →
      ({ biogrid_id := g.BIOGRID_ID, symbol := g.OFFICIAL_SYMBOL,
         synonyms := ["p85", "PIK3R1", "PIK3R2"], taxon_id := g.TAXON_ID,
         organism := g.ORGANISM_NAME } : GeneEntry) ∈
        (geneSearchEnvelope q data).genes) := by
  constructor
  · simp [geneSearchEnvelope, List.map_map]
  · intro hs
    have hsplit : jsSplit '|' g.SYNONYMS = ["p85", "PIK3R1", "PIK3R2"] := by
      rw [hs]; decide
    have hmem := List.mem_map_of_mem (fun r : GeneResult =>
      ({ biogrid_id := r.BIOGRID_ID, symbol := r.OFFICIAL_SYMBOL,
         synonyms := jsSplit '|' r.SYNONYMS, taxon_id := r.TAXON_ID,
         organism := r.ORGANISM_NAME } : GeneEntry)) hg
    simp only at hmem
    rw [hsplit] at hmem
    exact hmem

/-- Witness for C9 at a concrete gene record. -/
theorem biogrid_C9_witness :
    (geneSearchEnvelope "pik3" [sampleGene]).genes.map GeneEntry.synonyms =
      [sampleGene].map (fun r => jsSplit '|' r.SYNONYMS) ∧
    ({ biogrid_id := "111", symbol := "PIK3R1",
       synonyms := ["p85", "PIK3R1", "PIK3R2"], taxon_id := "9606",
       organism := "Homo sapiens" } : GeneEntry) ∈
      (geneSearchEnvelope "pik3" [sampleGene]).genes := by
  have h := biogrid_C9 "pik3" [sampleGene] sampleGene (List.mem_singleton_self _)
  exact ⟨h.1, h.2 rfl⟩

/-- C10: with `max_results = 0` (or any falsy value) the interaction
tools silently send the default `max` of `"500"` upstream
(`search_genes` sends `"25"`), instead of rejecting the value or
forwarding `"0"`. -/
theorem biogrid_C10 (g q : String) (taxon : JsVal) (ty : String) (v : JsVal)
    (interUp : Upstream (List BioGridInteraction))
    (hv : jsTruthy v = false) :
    (interactionParams g taxon ty v).lookup "max" = some "500" ∧
    (geneSearchParams q taxon v).lookup "max" = some "25" ∧
    (runInteractionQuery (.vstr g) taxon ty v interUp).errCode ≠
      some .InvalidParams := by
  refine ⟨?_, ?_, ?_⟩
  · rw [interactionParams_lookup_max, jsOr_falsy _ hv]; rfl
  · rw [geneSearchParams_lookup_max, jsOr_falsy _ hv]; rfl
  · cases hu : interUp (interactionParams g taxon ty v) <;>
      simp [runInteractionQuery, hu, Outcome.errCode]

/-- Witness for C10 at `max_results = 0`. -/
theorem biogrid_C10_witness :
    (interactionParams "TP53" .vundefined "all" (.vnum 0)).lookup "max" =
      some "500" ∧
    (geneSearchParams "pik3" .vundefined (.vnum 0)).lookup "max" = some "25" ∧
    (runInteractionQuery (.vstr "TP53") .vundefined "all" (.vnum 0)
        (fun _ => .ok [])).errCode ≠ some .InvalidParams := by
  exact biogrid_C10 "TP53" "pik3" .vundefined "all" (.vnum 0) (fun _ => .ok [])
    (by decide)

/-- Witness for C4's amended statement at the out-of-range value
`max_results = 20000`. -/
theorem biogrid_C4_witness :
    (interactionParams "TP53" .vundefined "physical" (.vnum 20000)).lookup "max" =
      some "20000" ∧
    (runInteractionQuery (.vstr "TP53") .vundefined "physical" (.vnum 20000)
        (fun _ => .ok [])).errCode ≠ some .InvalidParams ∧
    (runInteractionQuery (.vstr "TP53") .vundefined "physical" (.vnum 20000)
        (fun _ => .ok [])).upstreamCalls = 1 ∧
    (geneSearchParams "pik3" .vundefined (.vnum 20000)).lookup "max" =
      some "20000" ∧
    (runGeneSearch (.vstr "pik3") .vundefined (.vnum 20000)
        (fun _ => .ok [])).errCode ≠ some .InvalidParams ∧
    (runGeneSearch (.vstr "pik3") .vundefined (.vnum 20000)
        (fun _ => .ok [])).upstreamCalls = 1 := by
  have h := biogrid_C4_amended "TP53" "pik3" .vundefined "physical" 20000
    (fun _ => .ok []) (fun _ => .ok [])
  exact ⟨h.1.trans (by decide), h.2.1, h.2.2.1, h.2.2.2.1.trans (by decide),
    h.2.2.2.2.1, h.2.2.2.2.2⟩

end Biogrid
